import Mathlib

/-!
Verification development for the CycleTLS-Proxy Python client
(examples/python.py).  The Python client library is shallowly embedded:
headers are insertion-ordered association lists with Python-dict update
semantics, fallible operations return explicit outcome types, and the
transport layer (the requests / aiohttp session) is passed in as an
explicit function so that control flow around it can be stated.
-/

set_option autoImplicit false

namespace CycleTLS

/-! ## Python dict semantics for header mappings

Headers in the client are Python dicts built by item assignment and
`update`.  We model them as insertion-ordered association lists:
assignment replaces the value of an existing key in place, otherwise
appends; `update` performs the assignments of the other mapping in
order; lookup returns the value of the first (unique) matching key. -/

/-- Python dict item assignment `d[k] = v`: replace in place if the key
is present, otherwise append at the end. -/
def dictInsert : List (String × String) → String → String → List (String × String)
  | [], k, v => [(k, v)]
  | (k', v') :: rest, k, v =>
    if k' = k then (k, v) :: rest
    else (k', v') :: dictInsert rest k v

/-- Python dict lookup `d.get(k)`. -/
def dictGet : List (String × String) → String → Option String
  | [], _ => none
  | (k', v') :: rest, k => if k' = k then some v' else dictGet rest k

/-- Python `d.update(e)`: assign every item of `e` into `d`, in order. -/
def dictUpdate (d : List (String × String)) : List (String × String) → List (String × String)
  | [] => d
  | (k, v) :: rest => dictUpdate (dictInsert d k v) rest

theorem dictGet_dictInsert (d : List (String × String)) (k v k' : String) :
    dictGet (dictInsert d k v) k' = if k' = k then some v else dictGet d k' := by
  induction d with
  | nil =>
    by_cases h : k' = k
    · simp [dictInsert, dictGet, h]
    · simp [dictInsert, dictGet, h, Ne.symm h]
  | cons p rest ih =>
    obtain ⟨k₀, v₀⟩ := p
    by_cases h0 : k₀ = k
    · subst h0
      by_cases h : k₀ = k'
      · subst h
        simp [dictInsert, dictGet]
      · simp [dictInsert, dictGet, h, Ne.symm h]
    · by_cases h : k₀ = k'
      · have hk : ¬ k' = k := fun hh => h0 (h.trans hh)
        simp [dictInsert, dictGet, h0, h, hk]
      · simp [dictInsert, dictGet, h0, h, ih]

theorem dictGet_dictUpdate_of_not_mem (d e : List (String × String)) (k : String)
    (h : ∀ p ∈ e, p.1 ≠ k) :
    dictGet (dictUpdate d e) k = dictGet d k := by
  induction e generalizing d with
  | nil => rfl
  | cons p rest ih =>
    obtain ⟨k₀, v₀⟩ := p
    have hk0 : k₀ ≠ k := h (k₀, v₀) (List.mem_cons_self _ _)
    have hrest : ∀ p ∈ rest, p.1 ≠ k := fun p hp => h p (List.mem_cons_of_mem _ hp)
    rw [dictUpdate, ih _ hrest, dictGet_dictInsert]
    simp [Ne.symm hk0]

theorem dictGet_dictUpdate_append_last (d e : List (String × String)) (k v : String) :
    dictGet (dictUpdate d (e ++ [(k, v)])) k = some v := by
  induction e generalizing d with
  | nil => simp [dictUpdate, dictGet_dictInsert]
  | cons p rest ih =>
    obtain ⟨k₀, v₀⟩ := p
    simpa [dictUpdate] using ih (dictInsert d k₀ v₀)

/-! ## Data model -/

/-- Canonical browser profile identifiers (class BrowserProfile). -/
def browserProfiles : List String :=
  ["chrome", "chrome_windows", "firefox", "firefox_windows",
   "safari", "safari_ios", "edge", "okhttp", "chrome_legacy_tls12"]

/-- Configuration for CycleTLS-Proxy requests (dataclass ProxyConfig).
The profile is already in string form (post init converts the enum). -/
structure ProxyConfig where
  url : String
  profile : String
  session_id : Option String := none
  upstream_proxy : Option String := none
  timeout : Int := 30
deriving DecidableEq, Repr

/-- Python `s.rstrip(c)` for a single character. -/
def rstripChar (s : String) (c : Char) : String :=
  String.mk ((s.data.reverse.dropWhile (fun x => x = c)).reverse)

/-- CycleTLSClient construction state: proxy url (trailing slashes
stripped), default timeout, and the retry ceiling handed to the
transport session's Retry adapter. -/
structure CycleTLSClient where
  proxy_url : String
  default_timeout : Int
  max_retries : Nat
deriving DecidableEq, Repr

/-- CycleTLSClient.__init__ (defaults: http proxy on localhost, 30 s
timeout, 3 retries). -/
def CycleTLSClient.init (proxy_url : String := "http://localhost:8080")
    (default_timeout : Int := 30) (max_retries : Nat := 3) : CycleTLSClient :=
  { proxy_url := rstripChar proxy_url '/',
    default_timeout := default_timeout,
    max_retries := max_retries }

/-- AsyncCycleTLSClient construction state. -/
structure AsyncCycleTLSClient where
  proxy_url : String
  default_timeout : Int
deriving DecidableEq, Repr

/-- AsyncCycleTLSClient.__init__. -/
def AsyncCycleTLSClient.init (proxy_url : String := "http://localhost:8080")
    (default_timeout : Int := 30) : AsyncCycleTLSClient :=
  { proxy_url := rstripChar proxy_url '/',
    default_timeout := default_timeout }

/-! ## Header assembly (the two identical make-headers methods) -/

/-- CycleTLSClient._make_headers: routing headers first, then the
optional session, upstream-proxy and timeout headers (each guarded by
Python truthiness / inequality with the default), then
`headers.update(extra_headers)` when extra headers are truthy. -/
def CycleTLSClient.make_headers (c : CycleTLSClient) (config : ProxyConfig)
    (extra_headers : Option (List (String × String)) := none) : List (String × String) :=
  let headers : List (String × String) :=
    [("X-URL", config.url), ("X-IDENTIFIER", config.profile)]
  let headers := match config.session_id with
    | some s => if s = "" then headers else dictInsert headers "X-SESSION-ID" s
    | none => headers
  let headers := match config.upstream_proxy with
    | some p => if p = "" then headers else dictInsert headers "X-PROXY" p
    | none => headers
  let headers := if config.timeout ≠ c.default_timeout
    then dictInsert headers "X-TIMEOUT" (toString config.timeout) else headers
  match extra_headers with
  | some e => if e.isEmpty then headers else dictUpdate headers e
  | none => headers

/-- AsyncCycleTLSClient._make_headers: character for character the same
assembly as the synchronous client. -/
def AsyncCycleTLSClient.make_headers (c : AsyncCycleTLSClient) (config : ProxyConfig)
    (extra_headers : Option (List (String × String)) := none) : List (String × String) :=
  let headers : List (String × String) :=
    [("X-URL", config.url), ("X-IDENTIFIER", config.profile)]
  let headers := match config.session_id with
    | some s => if s = "" then headers else dictInsert headers "X-SESSION-ID" s
    | none => headers
  let headers := match config.upstream_proxy with
    | some p => if p = "" then headers else dictInsert headers "X-PROXY" p
    | none => headers
  let headers := if config.timeout ≠ c.default_timeout
    then dictInsert headers "X-TIMEOUT" (toString config.timeout) else headers
  match extra_headers with
  | some e => if e.isEmpty then headers else dictUpdate headers e
  | none => headers

theorem async_make_headers_eq (ac : AsyncCycleTLSClient) (config : ProxyConfig)
    (e : Option (List (String × String))) :
    AsyncCycleTLSClient.make_headers ac config e =
      CycleTLSClient.make_headers ⟨ac.proxy_url, ac.default_timeout, 0⟩ config e := rfl

/-! ## String helpers: Python substring membership and lower-casing -/

/-- Python list-of-chars membership helper: does the first list occur at
the head of the second. -/
def charsIsPrefix : List Char → List Char → Bool
  | [], _ => true
  | _ :: _, [] => false
  | a :: as, b :: bs => a = b && charsIsPrefix as bs

/-- Python list-of-chars substring occurrence. -/
def charsContains (sub : List Char) : List Char → Bool
  | [] => sub.isEmpty
  | s :: rest => charsIsPrefix sub (s :: rest) || charsContains sub rest

/-- Python substring test `sub in s` (for the non-empty markers the
client searches for). -/
def strContains (s sub : String) : Bool :=
  charsContains sub.data s.data

/-- Python `s.lower()` (ASCII is all the client compares). -/
def strLower (s : String) : String :=
  String.mk (s.data.map Char.toLower)

/-! ## Response classification (_handle_response) -/

/-- Result of CycleTLSClient._handle_response: either the response is
returned, or one of the client's exception classes is raised with the
given message. -/
inductive HandleOutcome where
  | success
  | invalidProfileError (msg : String)
  | timeoutError (msg : String)
  | error (msg : String)
deriving DecidableEq, Repr

/-- CycleTLSClient._handle_response on a completed response with the
given status code and body text.  raise_for_status raises exactly for
4xx and 5xx statuses; a 400 body is pattern-matched for the invalid
identifier marker first and the lower-cased timeout marker second. -/
def handle_response (status : Nat) (text : String) : HandleOutcome :=
  if 400 ≤ status ∧ status ≤ 599 then
    if status = 400 then
      if strContains text "Invalid identifier" then
        .invalidProfileError ("Invalid browser profile: " ++ text)
      else if strContains (strLower text) "timeout" then
        .timeoutError ("Request timeout: " ++ text)
      else
        .error ("Bad request: " ++ text)
    else if status = 502 then
      .error ("Upstream request failed: " ++ text)
    else
      .error ("HTTP " ++ toString status ++ ": " ++ text)
  else
    .success

/-! ## Transport model -/

/-- Result of one call into the underlying transport session: a
completed HTTP response, a transport-level timeout exception, or a
transport-level connection error. -/
inductive TransportResult where
  | response (status : Nat) (text : String)
  | timeoutExn
  | connectionError (msg : String)
deriving DecidableEq, Repr

/-- Outcome of CycleTLSClient.request as seen by the caller. -/
inductive RequestResult where
  | success (status : Nat) (text : String)
  | invalidProfileError (msg : String)
  | timeoutError (msg : String)
  | error (msg : String)
deriving DecidableEq, Repr

/-- Python falsy default `timeout or self.default_timeout`. -/
def resolveTimeout : Option Int → Int → Int
  | none, d => d
  | some t, d => if t = 0 then d else t

/-- The transport-level timeout used for the network call:
`config.timeout + 5` (buffer for proxy overhead), in the synchronous
client. -/
def CycleTLSClient.effective_timeout (config : ProxyConfig) : Int :=
  config.timeout + 5

/-- The aiohttp ClientTimeout total used by the asynchronous client:
`config.timeout + 5`. -/
def AsyncCycleTLSClient.effective_timeout (config : ProxyConfig) : Int :=
  config.timeout + 5

/-- CycleTLSClient.request: builds the ProxyConfig (with the falsy
timeout default), assembles the proxy headers, performs exactly one
call into the session transport (passing method, proxy url, headers and
the buffered timeout) and classifies what comes back.  The second
component counts the transport calls made by this method body: the
source has no validation path that skips the call, so it is always 1.
The transport function abstracts self.session.request. -/
def CycleTLSClient.request (c : CycleTLSClient) (method url : String)
    (profile : String) (session_id : Option String := none)
    (upstream_proxy : Option String := none) (timeout : Option Int := none)
    (headers : Option (List (String × String)) := none)
    (transport : String → String → List (String × String) → Int → TransportResult) :
    RequestResult × Nat :=
  let config : ProxyConfig :=
    { url := url, profile := profile, session_id := session_id,
      upstream_proxy := upstream_proxy,
      timeout := resolveTimeout timeout c.default_timeout }
  let proxy_headers := c.make_headers config headers
  let outcome : RequestResult :=
    match transport method c.proxy_url proxy_headers (CycleTLSClient.effective_timeout config) with
    | .response s t =>
      match handle_response s t with
      | .success => .success s t
      | .invalidProfileError m => .invalidProfileError m
      | .timeoutError m => .timeoutError m
      | .error m => .error m
    | .timeoutExn =>
      .timeoutError ("Request timed out after " ++ toString config.timeout ++ "s")
    | .connectionError m =>
      .error ("Connection error: " ++ m)
  (outcome, 1)

/-! ## Health check -/

/-- Outcome of CycleTLSClient.health_check; the failure message is
abstracted (the source interpolates the caught exception). -/
inductive HealthResult where
  | ok (payload : String)
  | failed
deriving DecidableEq, Repr

/-- The fixed health endpoint: proxy base url plus the /health path. -/
def CycleTLSClient.health_url (c : CycleTLSClient) : String :=
  c.proxy_url ++ "/health"

/-- The short timeout health_check passes to session.get. -/
def health_check_timeout : Nat := 5

/-- CycleTLSClient.health_check: one session.get of the fixed health
url with the short timeout; raise_for_status makes any 4xx or 5xx
status an exception, and every exception is converted to a
CycleTLSError (health check failed). -/
def CycleTLSClient.health_check (c : CycleTLSClient)
    (transport : String → Nat → TransportResult) : HealthResult :=
  match transport c.health_url health_check_timeout with
  | .response s text =>
    if 400 ≤ s ∧ s ≤ 599 then .failed else .ok text
  | .timeoutExn => .failed
  | .connectionError _ => .failed

/-! ## Transport retry adapter

CycleTLSClient.__init__ mounts an HTTPAdapter on both url schemes whose
urllib3 Retry strategy is total = max_retries with backoff and the
status forcelist below.  The two definitions after the forcelist model
the adapter's documented behaviour for a request whose method urllib3
retries by default (GET, as used by the examples and health_check):
each response whose status is in the forcelist consumes one retry and
triggers another attempt while retries remain; a status outside the
forcelist is returned; exhausting the retries raises the adapter's
retry-exhausted error instead of returning the last response. -/

/-- The status_forcelist configured in CycleTLSClient.__init__. -/
def statusForcelist : List Nat := [429, 500, 502, 503, 504]

/-- Number of transport attempts the mounted retry adapter makes when
the successive attempts would observe the given statuses, with the
given total retry allowance. -/
def retryAttempts : Nat → List Nat → Nat
  | _, [] => 0
  | 0, _ :: _ => 1
  | t + 1, s :: rest =>
    if s ∈ statusForcelist then 1 + retryAttempts t rest else 1

/-- What the mounted retry adapter hands back to the caller of the
session: the first response whose status is outside the forcelist, or
the retry-exhausted error once the allowance is spent on forcelist
statuses. -/
inductive AdapterFinal where
  | response (status : Nat)
  | retryExhausted
deriving DecidableEq, Repr

/-- Final outcome of the retry adapter on the given status stream. -/
def retryFinal : Nat → List Nat → AdapterFinal
  | _, [] => .retryExhausted
  | 0, s :: _ =>
    if s ∈ statusForcelist then .retryExhausted else .response s
  | t + 1, s :: rest =>
    if s ∈ statusForcelist then retryFinal t rest else .response s

/-! ## Concurrent dispatch ordering

run_concurrent_examples submits one future per request index to a
ThreadPoolExecutor and builds its results list by iterating
concurrent.futures.as_completed, which yields futures in the order they
complete; run_async_examples awaits asyncio.gather over its tasks,
which (library contract) returns results in the order the tasks were
passed, independent of completion order.  Completion order is modelled
as the list of request indices in the order the requests finish. -/

/-- Results list built by run_concurrent_examples: the per-request
outcomes arranged in completion order. -/
def collectConcurrentResults {α : Type} (outcomes : List α)
    (completionOrder : List Nat) : List α :=
  completionOrder.filterMap (fun i => outcomes[i]?)

/-- Modelled from the library contract of asyncio.gather used by
run_async_examples: the awaited results come back in task submission
order, whatever the completion order was. -/
def gatherResults {α : Type} (outcomes : List α)
    (_completionOrder : List Nat) : List α :=
  outcomes

/-! ## Characterization of the assembled headers -/

theorem make_headers_some_eq (c : CycleTLSClient) (config : ProxyConfig)
    (e : List (String × String)) :
    c.make_headers config (some e) = dictUpdate (c.make_headers config none) e := by
  cases e <;> rfl

theorem getXURL_none (c : CycleTLSClient) (config : ProxyConfig) :
    dictGet (c.make_headers config none) "X-URL" = some config.url := by
  rcases config with ⟨u, p, sid, up, t⟩
  cases sid <;> cases up <;>
    simp [CycleTLSClient.make_headers, dictGet, dictGet_dictInsert] <;>
    split_ifs <;>
    simp [dictGet, dictGet_dictInsert]

theorem getXIDENTIFIER_none (c : CycleTLSClient) (config : ProxyConfig) :
    dictGet (c.make_headers config none) "X-IDENTIFIER" = some config.profile := by
  rcases config with ⟨u, p, sid, up, t⟩
  cases sid <;> cases up <;>
    simp [CycleTLSClient.make_headers, dictGet, dictGet_dictInsert] <;>
    split_ifs <;>
    simp [dictGet, dictGet_dictInsert]

theorem getXSESSIONID_none (c : CycleTLSClient) (config : ProxyConfig) :
    dictGet (c.make_headers config none) "X-SESSION-ID" =
      (match config.session_id with
       | some s => if s = "" then none else some s
       | none => none) := by
  rcases config with ⟨u, p, sid, up, t⟩
  cases sid <;> cases up <;>
    simp [CycleTLSClient.make_headers, dictGet, dictGet_dictInsert] <;>
    split_ifs <;>
    simp_all [dictGet, dictGet_dictInsert]

theorem getXTIMEOUT_none (c : CycleTLSClient) (config : ProxyConfig) :
    dictGet (c.make_headers config none) "X-TIMEOUT" =
      if config.timeout = c.default_timeout then none
      else some (toString config.timeout) := by
  rcases config with ⟨u, p, sid, up, t⟩
  cases sid <;> cases up <;>
    simp [CycleTLSClient.make_headers, dictGet, dictGet_dictInsert] <;>
    split_ifs <;>
    simp_all [dictGet, dictGet_dictInsert]

/-! ## Retry adapter facts -/

theorem retryAttempts_replicate_mem (t s : Nat) (h : s ∈ statusForcelist) :
    retryAttempts t (List.replicate (t + 1) s) = t + 1 := by
  induction t with
  | zero => simp [retryAttempts]
  | succ n ih =>
    have hrep : List.replicate (n + 1 + 1) s = s :: List.replicate (n + 1) s := rfl
    rw [hrep, retryAttempts]
    simp [h, ih]
    omega

theorem retryFinal_replicate_mem (t s : Nat) (h : s ∈ statusForcelist) :
    retryFinal t (List.replicate (t + 1) s) = .retryExhausted := by
  induction t with
  | zero => simp [retryFinal, h]
  | succ n ih =>
    have hrep : List.replicate (n + 1 + 1) s = s :: List.replicate (n + 1) s := rfl
    rw [hrep, retryFinal]
    simp [h, ih]

/-! ## Claims -/

/-- C1 counterexample: caller-supplied extra headers are merged with
`headers.update(extra_headers)` as the last assembly step, so a
colliding extra-headers key overrides the X-URL routing header: with
target url https://example.com and an extra X-URL entry, the assembled
mapping carries the extra value, not the config url. -/
theorem c1_extra_header_overrides_routing_counterexample :
    dictGet (CycleTLSClient.init.make_headers
        { url := "https://example.com", profile := "chrome" }
        (some [("X-URL", "https://attacker.example")])) "X-URL" =
      some "https://attacker.example" ∧
    some "https://attacker.example" ≠ some "https://example.com" := by
  decide

/-- C1 amended: in both the sync and async clients the assembled
headers carry the original target url in X-URL and the profile
identifier in X-IDENTIFIER whenever the caller's extra headers do not
use those keys; when an extra-headers key collides with a routing
header, the caller's value (the last occurrence in the extra mapping)
wins, because the extra headers are merged last. -/
theorem c1_routing_headers_amended :
    ∀ (c : CycleTLSClient) (ac : AsyncCycleTLSClient) (config : ProxyConfig)
      (e : List (String × String)),
      ((∀ p ∈ e, p.1 ≠ "X-URL") →
        dictGet (c.make_headers config (some e)) "X-URL" = some config.url ∧
        dictGet (ac.make_headers config (some e)) "X-URL" = some config.url) ∧
      ((∀ p ∈ e, p.1 ≠ "X-IDENTIFIER") →
        dictGet (c.make_headers config (some e)) "X-IDENTIFIER" = some config.profile ∧
        dictGet (ac.make_headers config (some e)) "X-IDENTIFIER" = some config.profile) ∧
      (∀ v : String,
        dictGet (c.make_headers config (some (e ++ [("X-URL", v)]))) "X-URL" = some v ∧
        dictGet (ac.make_headers config (some (e ++ [("X-IDENTIFIER", v)])))
          "X-IDENTIFIER" = some v) := by
  intro c ac config e
  refine ⟨?_, ?_, ?_⟩
  · intro he
    constructor
    · rw [make_headers_some_eq, dictGet_dictUpdate_of_not_mem _ _ _ he, getXURL_none]
    · rw [async_make_headers_eq, make_headers_some_eq,
        dictGet_dictUpdate_of_not_mem _ _ _ he, getXURL_none]
  · intro he
    constructor
    · rw [make_headers_some_eq, dictGet_dictUpdate_of_not_mem _ _ _ he, getXIDENTIFIER_none]
    · rw [async_make_headers_eq, make_headers_some_eq,
        dictGet_dictUpdate_of_not_mem _ _ _ he, getXIDENTIFIER_none]
  · intro v
    constructor
    · rw [make_headers_some_eq, dictGet_dictUpdate_append_last]
    · rw [async_make_headers_eq, make_headers_some_eq, dictGet_dictUpdate_append_last]

/-- Witness for the amended C1 at a concrete client, config and
extra-headers list. -/
theorem c1_routing_headers_amended_witness :
    dictGet (CycleTLSClient.init.make_headers
        { url := "https://example.com", profile := "chrome" }
        (some [("Accept", "application/json")])) "X-URL" = some "https://example.com" ∧
    dictGet (CycleTLSClient.init.make_headers
        { url := "https://example.com", profile := "chrome" }
        (some [("Accept", "application/json"), ("X-URL", "https://other.example")]))
      "X-URL" = some "https://other.example" := by
  have h := c1_routing_headers_amended CycleTLSClient.init AsyncCycleTLSClient.init
    { url := "https://example.com", profile := "chrome" } [("Accept", "application/json")]
  exact ⟨(h.1 (by decide)).1, (h.2.2 "https://other.example").1⟩

/-- C2 counterexample: CycleTLSClient.request performs no client-side
validation.  With the non-canonical profile identifier
invalid-profile, an empty target url and a negative timeout, the
transport send is still reached (exactly once), and a 200 transport
response is even returned as success, with no validation error of any
kind. -/
theorem c2_no_validation_counterexample :
    "invalid-profile" ∉ browserProfiles ∧
    (CycleTLSClient.init.request "GET" "" "invalid-profile" none none (some (-1)) none
        (fun _ _ _ _ => .response 200 "ok")).2 = 1 ∧
    (CycleTLSClient.init.request "GET" "" "invalid-profile" none none (some (-1)) none
        (fun _ _ _ _ => .response 200 "ok")).1 = .success 200 "ok" := by
  decide

/-- C2 amended: CycleTLSClient.request never validates before sending:
for every client, argument list and transport, the body performs
exactly one transport call; an invalid profile surfaces as the
invalid-profile error only by classifying the proxy's 400 response
carrying the Invalid identifier marker, after the network call. -/
theorem c2_transport_always_reached_amended :
    (∀ (c : CycleTLSClient) (method url profile : String)
       (sid up : Option String) (t : Option Int)
       (hs : Option (List (String × String)))
       (transport : String → String → List (String × String) → Int → TransportResult),
       (c.request method url profile sid up t hs transport).2 = 1) ∧
    (CycleTLSClient.init.request "GET" "https://example.com" "bogus" none none none none
        (fun _ _ _ _ => .response 400 "Invalid identifier: bogus")).1 =
      .invalidProfileError "Invalid browser profile: Invalid identifier: bogus" := by
  exact ⟨fun _ _ _ _ _ _ _ _ _ => rfl, by decide⟩

/-- C3 counterexample: 502 is a member of the status_forcelist handed
to the session's Retry adapter in CycleTLSClient.__init__, so with the
default retry ceiling an all-502 exchange makes 4 transport attempts,
not 1, and ends in the adapter's retry-exhausted error. -/
theorem c3_status502_retried_counterexample :
    502 ∈ statusForcelist ∧
    retryAttempts CycleTLSClient.init.max_retries [502, 502, 502, 502] = 4 ∧
    (4 : Nat) ≠ 1 ∧
    retryFinal CycleTLSClient.init.max_retries [502, 502, 502, 502] = .retryExhausted := by
  decide

/-- C3 amended: _handle_response classifies a 502 response as a
CycleTLSError with the upstream-request-failed message, but 502 is in
the transport adapter's status_forcelist, so 502 responses are
automatically retried: with the default ceiling an all-502 exchange
makes 1 + max_retries = 4 attempts and the adapter's retry-exhausted
error, not the 502 classification, reaches the caller. -/
theorem c3_status502_amended :
    (∀ text : String,
      handle_response 502 text = .error ("Upstream request failed: " ++ text)) ∧
    502 ∈ statusForcelist ∧
    (∀ rest : List Nat,
      retryAttempts 3 (502 :: 502 :: 502 :: 502 :: rest) = 4) ∧
    (∀ rest : List Nat,
      retryFinal 3 (502 :: 502 :: 502 :: 502 :: rest) = .retryExhausted) := by
  refine ⟨fun text => rfl, by decide, fun rest => rfl, fun rest => rfl⟩

/-- C4 counterexample: health_check issues its GET through the same
session whose Retry adapter retries forcelist statuses, so a proxy
answering 503 to every attempt incurs 4 transport attempts, not
exactly one, before the health-check error surfaces. -/
theorem c4_health_check_retry_counterexample :
    CycleTLSClient.init.health_check (fun _ _ => .response 503 "unavailable") = .failed ∧
    503 ∈ statusForcelist ∧
    retryAttempts CycleTLSClient.init.max_retries [503, 503, 503, 503] = 4 ∧
    (4 : Nat) ≠ 1 := by
  decide

/-- C4 amended: health_check performs a GET of the fixed /health path
on the proxy base url with a 5 second timeout and fails with the
health-check error on any 4xx/5xx status or transport error; but the
GET goes through the session whose Retry adapter retries forcelist
statuses, so for such statuses up to max_retries additional attempts
are made before the error surfaces. -/
theorem c4_health_check_amended :
    ∀ (c : CycleTLSClient) (s : Nat) (text : String),
      c.health_url = c.proxy_url ++ "/health" ∧
      health_check_timeout = 5 ∧
      (400 ≤ s → s ≤ 599 → c.health_check (fun _ _ => .response s text) = .failed) ∧
      c.health_check (fun _ _ => .timeoutExn) = .failed ∧
      c.health_check (fun _ _ => .connectionError text) = .failed ∧
      (s ∈ statusForcelist →
        retryAttempts c.max_retries (List.replicate (c.max_retries + 1) s) =
          c.max_retries + 1) := by
  intro c s text
  refine ⟨rfl, rfl, ?_, rfl, rfl, ?_⟩
  · intro h1 h2
    simp [CycleTLSClient.health_check, h1, h2]
  · intro hmem
    exact retryAttempts_replicate_mem c.max_retries s hmem

/-- Witness for the amended C4 at status 503 and the default client. -/
theorem c4_health_check_amended_witness :
    CycleTLSClient.init.health_check (fun _ _ => .response 503 "unavailable") = .failed ∧
    retryAttempts CycleTLSClient.init.max_retries (List.replicate 4 503) = 4 := by
  have h := c4_health_check_amended CycleTLSClient.init 503 "unavailable"
  exact ⟨h.2.2.1 (by decide) (by decide), h.2.2.2.2.2 (by decide)⟩

/-- C5: for every positive declared timeout t, the timeout handed to
the transport call is t + 5 in both clients: request resolves the
declared timeout through the Python falsy default (which leaves a
positive t unchanged) and both effective-timeout computations add the
fixed 5 second buffer. -/
theorem c5_effective_timeout_buffer :
    ∀ (dflt t : Int), 0 < t →
      ∀ (u p : String) (sid up2 : Option String),
        CycleTLSClient.effective_timeout
          { url := u, profile := p, session_id := sid, upstream_proxy := up2,
            timeout := resolveTimeout (some t) dflt } = t + 5 ∧
        AsyncCycleTLSClient.effective_timeout
          { url := u, profile := p, session_id := sid, upstream_proxy := up2,
            timeout := resolveTimeout (some t) dflt } = t + 5 := by
  intro dflt t ht u p sid up2
  have h0 : t ≠ 0 := by omega
  constructor <;>
    simp [CycleTLSClient.effective_timeout, AsyncCycleTLSClient.effective_timeout,
      resolveTimeout, h0]

/-- Witness for C5 at declared timeout 7 against the default of 30. -/
theorem c5_effective_timeout_buffer_witness :
    CycleTLSClient.effective_timeout
      { url := "https://example.com", profile := "chrome", session_id := none,
        upstream_proxy := none, timeout := resolveTimeout (some 7) 30 } = 12 := by
  have h := (c5_effective_timeout_buffer 30 7 (by decide) "https://example.com" "chrome"
    none none).1
  simpa using h

/-- C6: the X-TIMEOUT header is present in the assembled headers (in
both clients) exactly when the config timeout differs from the client
default, carrying the decimal string of the config timeout, provided
the caller's extra headers do not themselves use the X-TIMEOUT key. -/
theorem c6_x_timeout_header :
    ∀ (c : CycleTLSClient) (ac : AsyncCycleTLSClient) (config : ProxyConfig)
      (e : List (String × String)),
      (∀ p ∈ e, p.1 ≠ "X-TIMEOUT") →
      dictGet (c.make_headers config (some e)) "X-TIMEOUT" =
        (if config.timeout = c.default_timeout then none
         else some (toString config.timeout)) ∧
      dictGet (ac.make_headers config (some e)) "X-TIMEOUT" =
        (if config.timeout = ac.default_timeout then none
         else some (toString config.timeout)) := by
  intro c ac config e he
  constructor
  · rw [make_headers_some_eq, dictGet_dictUpdate_of_not_mem _ _ _ he, getXTIMEOUT_none]
  · rw [async_make_headers_eq, make_headers_some_eq,
      dictGet_dictUpdate_of_not_mem _ _ _ he, getXTIMEOUT_none]

/-- Witness for C6: timeout 10 against default 30 yields the header
with value 10; timeout 30 against default 30 omits the header. -/
theorem c6_x_timeout_header_witness :
    dictGet (CycleTLSClient.init.make_headers
        { url := "https://example.com", profile := "chrome", timeout := 10 }
        (some [])) "X-TIMEOUT" = some "10" ∧
    dictGet (CycleTLSClient.init.make_headers
        { url := "https://example.com", profile := "chrome", timeout := 30 }
        (some [])) "X-TIMEOUT" = none := by
  have h1 := (c6_x_timeout_header CycleTLSClient.init AsyncCycleTLSClient.init
    { url := "https://example.com", profile := "chrome", timeout := 10 } []
    (by simp)).1
  have h2 := (c6_x_timeout_header CycleTLSClient.init AsyncCycleTLSClient.init
    { url := "https://example.com", profile := "chrome", timeout := 30 } []
    (by simp)).1
  rw [h1, h2]
  constructor <;> decide

/-- C7 counterexample: run_concurrent_examples builds its results list
by iterating as_completed, i.e. in completion order: with two request
outcomes and a completion order in which request 1 finishes first, the
collected list is reversed relative to input-index order. -/
theorem c7_sync_ordering_counterexample :
    collectConcurrentResults [(10 : Nat), 20] [1, 0] = [20, 10] ∧
    [(20 : Nat), 10] ≠ [10, 20] := by
  decide

/-- C7 amended: the async dispatch (asyncio.gather as used by
run_async_examples) returns outcomes in input-index order for every
completion order, but the sync thread-pool dispatch of
run_concurrent_examples collects its results list in completion order
(only the printed display is sorted afterwards). -/
theorem c7_ordering_amended :
    (∀ (outcomes completionOrder : List Nat),
      gatherResults outcomes completionOrder = outcomes) ∧
    (∀ (outcomes completionOrder : List Nat),
      collectConcurrentResults outcomes completionOrder =
        completionOrder.filterMap (fun i => outcomes[i]?)) ∧
    collectConcurrentResults [(10 : Nat), 20] [1, 0] ≠ [10, 20] := by
  exact ⟨fun _ _ => rfl, fun _ _ => rfl, by decide⟩

/-- C8 counterexample: with the default retry ceiling (max_retries =
3, handed to the adapter as its total), an all-503 exchange makes 4
transport attempts (the initial attempt plus 3 retries), not 3. -/
theorem c8_retry_ceiling_counterexample :
    retryAttempts CycleTLSClient.init.max_retries [503, 503, 503, 503] = 4 ∧
    (4 : Nat) ≠ 3 := by
  decide

/-- C8 amended: 503 is in the adapter's status_forcelist and the
configured total is the retry allowance on top of the initial attempt:
for every allowance t, an all-503 exchange makes t + 1 attempts and
then surfaces the adapter's retry-exhausted error (with the default
ceiling of 3 this is 4 attempts). -/
theorem c8_retry_ceiling_amended :
    503 ∈ statusForcelist ∧
    (∀ t : Nat, retryAttempts t (List.replicate (t + 1) 503) = t + 1) ∧
    (∀ t : Nat, retryFinal t (List.replicate (t + 1) 503) = .retryExhausted) ∧
    retryAttempts CycleTLSClient.init.max_retries (List.replicate 4 503) = 4 := by
  refine ⟨by decide, ?_, ?_, by decide⟩
  · intro t
    exact retryAttempts_replicate_mem t 503 (by decide)
  · intro t
    exact retryFinal_replicate_mem t 503 (by decide)

/-- C9: passing the empty string as session identifier assembles
exactly the same headers as passing none (Python truthiness guards the
X-SESSION-ID insertion), and, when the extra headers do not use the
X-SESSION-ID key, the header is present iff the session identifier is
a non-empty string, carrying that string, in both clients. -/
theorem c9_session_header :
    ∀ (c : CycleTLSClient) (ac : AsyncCycleTLSClient) (config : ProxyConfig)
      (e : Option (List (String × String))),
      c.make_headers { config with session_id := some "" } e =
        c.make_headers { config with session_id := none } e ∧
      ac.make_headers { config with session_id := some "" } e =
        ac.make_headers { config with session_id := none } e ∧
      (∀ e2 : List (String × String), (∀ p ∈ e2, p.1 ≠ "X-SESSION-ID") →
        dictGet (c.make_headers config (some e2)) "X-SESSION-ID" =
          (match config.session_id with
           | some s => if s = "" then none else some s
           | none => none) ∧
        dictGet (ac.make_headers config (some e2)) "X-SESSION-ID" =
          (match config.session_id with
           | some s => if s = "" then none else some s
           | none => none)) := by
  intro c ac config e
  refine ⟨?_, ?_, ?_⟩
  · simp [CycleTLSClient.make_headers]
  · simp [AsyncCycleTLSClient.make_headers]
  · intro e2 he
    constructor
    · rw [make_headers_some_eq, dictGet_dictUpdate_of_not_mem _ _ _ he, getXSESSIONID_none]
    · rw [async_make_headers_eq, make_headers_some_eq,
        dictGet_dictUpdate_of_not_mem _ _ _ he, getXSESSIONID_none]

/-- Witness for C9: the empty session identifier produces the same
headers as none, with no X-SESSION-ID entry, and a non-empty
identifier produces the entry. -/
theorem c9_session_header_witness :
    CycleTLSClient.init.make_headers
        { url := "https://example.com", profile := "chrome", session_id := some "" }
        none =
      CycleTLSClient.init.make_headers
        { url := "https://example.com", profile := "chrome", session_id := none }
        none ∧
    dictGet (CycleTLSClient.init.make_headers
        { url := "https://example.com", profile := "chrome", session_id := some "s1" }
        (some [])) "X-SESSION-ID" = some "s1" := by
  have h1 := (c9_session_header CycleTLSClient.init AsyncCycleTLSClient.init
    { url := "https://example.com", profile := "chrome", session_id := some "" }
    none).1
  have h2 := ((c9_session_header CycleTLSClient.init AsyncCycleTLSClient.init
    { url := "https://example.com", profile := "chrome", session_id := some "s1" }
    none).2.2 [] (by simp)).1
  refine ⟨h1, ?_⟩
  rw [h2]
  decide

/-- C10: in _handle_response the Invalid identifier marker is checked
before the lower-cased timeout marker, so every 400 body containing
Invalid identifier raises the invalid-profile error (even when a
timeout marker is also present), and the timeout classification
applies exactly to 400 bodies with a timeout marker and no Invalid
identifier marker. -/
theorem c10_invalid_identifier_precedence :
    ∀ text : String,
      (strContains text "Invalid identifier" = true →
        handle_response 400 text =
          .invalidProfileError ("Invalid browser profile: " ++ text)) ∧
      (strContains text "Invalid identifier" = false →
        strContains (strLower text) "timeout" = true →
        handle_response 400 text = .timeoutError ("Request timeout: " ++ text)) := by
  intro text
  constructor
  · intro h
    simp [handle_response, h]
  · intro h1 h2
    simp [handle_response, h1, h2]

/-- Witness for C10: a body containing both markers is classified as
invalid profile; a body with only the timeout marker (case folded) is
classified as timeout. -/
theorem c10_invalid_identifier_precedence_witness :
    handle_response 400 "Invalid identifier: timeout" =
      .invalidProfileError ("Invalid browser profile: " ++ "Invalid identifier: timeout") ∧
    handle_response 400 "upstream Timeout" =
      .timeoutError ("Request timeout: " ++ "upstream Timeout") :=
  ⟨(c10_invalid_identifier_precedence "Invalid identifier: timeout").1 (by decide),
   (c10_invalid_identifier_precedence "upstream Timeout").2 (by decide) (by decide)⟩

end CycleTLS
